import Mathlib

/-!
Verification of the VergeIO Packer builder's VM-provisioning pipeline.

This file gives a shallow embedding, in Lean, of the builder steps and REST
client helpers of the plugin (builder/vergeio and client packages) and proves
properties of the embedded definitions.  Remote calls are modelled by
environment functions returning `Except GatewayErr`; the shared multistep
state bag is modelled by the `BuildState` structure whose fields carry the
same keys the Go code reads and writes with `state.Get` / `state.Put`; the
blocking sleeps of polling loops are modelled as trace events.
-/

/-- A failure of a single remote API request (the Go code sees these as a
non-nil `error` or a non-2xx status code from the HTTP client). -/
inductive GatewayErr
  | requestFailed (msg : String)
  | httpStatus (code : Nat)
deriving DecidableEq, Repr

/-- Result of a multistep step, as in the packer-plugin-sdk:
`multistep.ActionContinue` or `multistep.ActionHalt`. -/
inductive StepAction
  | actionContinue
  | actionHalt
deriving DecidableEq, Repr

/-- Error raised by `DriveApi.WaitForDiskImportCompletion`: either a failed
status check (returned verbatim, wrapped) or the retry budget running out. -/
inductive ImportWaitErr
  | statusCheckFailed (e : GatewayErr)
  | importTimeout (diskKey : String) (maxRetries : Nat) (lastStatus : String)
deriving DecidableEq, Repr

/-- Error raised by `DriveApi.CheckAndResizeImportedDisks`: a failed read of a
disk after its import, or a failed size update, each naming the disk. -/
inductive ResizeErr
  | readFailed (diskName : String) (e : GatewayErr)
  | resizeFailed (diskName : String) (e : GatewayErr)
deriving DecidableEq, Repr

/-- The build-terminal errors the steps write into the state bag under the
key `error` (each constructor corresponds to one `state.Put("error", ...)`
site in the Go source). -/
inductive BuildErr
  | vmPostFailed (e : GatewayErr)
  | machineIdMissing
  | vmIdMissing
  | resourceCreationFailed (resource : String) (name : String) (e : GatewayErr)
  | diskImportFailed (e : ImportWaitErr)
  | diskResizeFailed (e : ResizeErr)
  | powerOnFailed (e : GatewayErr)
  | powerOnTimeout
  | noAddressDiscovery
  | guestAgentTimeout
  | agentConnectionLost
  | noIPsDiscovered
deriving DecidableEq, Repr

/-- Remote API calls a step can issue; used to trace rollback and shutdown
behaviour.  `deleteDisk` never occurs in any trace: the client exposes no
per-disk delete and the code relies on VM deletion cascading. -/
inductive ApiCall
  | deleteVM (key : String)
  | deleteDisk (key : String)
  | powerAction (key : String) (action : String)
  | getRunningState (key : String)
deriving DecidableEq, Repr

/-- A cloud-init file of the VM configuration (`CloudInitFile` in config.go;
the `Files` list is already folded into `Contents` by `processCloudInitFiles`
before any step runs, so only name and contents are modelled). -/
structure CloudInitFile where
  name : String := ""
  contents : String := ""
deriving DecidableEq, Repr

/-- `VmDiskConfig` from config.go (the user-facing disk specification). -/
structure VmDiskConfig where
  machine : Int := 0
  name : String := ""
  description : String := ""
  interface : String := ""
  media : String := ""
  mediaSource : Int := 0
  preferredTier : String := ""
  diskSize : Int := 0
  enabled : Bool := false
  readOnly : Bool := false
  serial : String := ""
  asset : String := ""
  orderId : Int := 0
  preserveDriveFormat : Bool := false
deriving DecidableEq, Repr

/-- `VmNicConfig` from config.go (the user-facing NIC specification). -/
structure VmNicConfig where
  machine : Int := 0
  name : String := ""
  description : String := ""
  interface : String := ""
  driver : String := ""
  model : String := ""
  vnet : Int := 0
  mac : String := ""
  ipAddress : String := ""
  assignIPAddress : Bool := false
  enabled : Bool := false
deriving DecidableEq, Repr

/-- The fields of `VmConfig` (config.go) that the embedded steps read.  The
remaining scalar fields (display, sound, rtc_base, ...) are copied verbatim
into the create request and never branched on, so they are omitted here. -/
structure VmConfig where
  name : String := ""
  guestAgent : Bool := false
  vmDiskConfigs : List VmDiskConfig := []
  vmNicConfigs : List VmNicConfig := []
  cloudInitFiles : List CloudInitFile := []
deriving DecidableEq, Repr

/-- `VMDiskResourceModel` from client/drive_api.go: the API request and
response model for a machine drive. -/
structure VMDiskResourceModel where
  key : Int := 0
  machine : Int := 0
  name : String := ""
  description : String := ""
  interface : String := ""
  media : String := ""
  mediaSource : Int := 0
  preferredTier : String := ""
  diskSize : Int := 0
  enabled : Bool := false
  readOnly : Bool := false
  serial : String := ""
  asset : String := ""
  orderId : Int := 0
  preserveDriveFormat : Bool := false
deriving DecidableEq, Repr

/-- The multistep state bag, restricted to the keys the VergeIO steps read
and write.  `diskImportKeys` and `diskImportConfigs` model the state keys
named "import_disk_keys" and "import_disk_configs" in the Go source; the
other fields carry their Go state-bag key as their name.  `none` models a
key that is absent from the bag (`state.GetOk` returning false). -/
structure BuildState where
  vm_id : Option String := none
  machine_id : Option Int := none
  error : Option BuildErr := none
  vm_creation_failed : Option Bool := none
  vm_power_on_failed : Option Bool := none
  vm_powered_on : Option Bool := none
  vm_shutdown_completed : Option Bool := none
  host : Option String := none
  discovered_ips : Option (List String) := none
  diskImportKeys : Option (List String) := none
  diskImportConfigs : Option (List VMDiskResourceModel) := none
deriving DecidableEq, Repr

/-- `ipSlicesEqual` from step_wait_for_ip.go: two IP slices are considered
equal when their lengths agree and each is contained in the other (the Go
code materialises both slices as sets in maps and checks mutual inclusion;
iterating the map keys is the same boolean as iterating the slice). -/
def ipSlicesEqual (a b : List String) : Bool :=
  if a.length ≠ b.length then false
  else (a.all fun ip => b.contains ip) && (b.all fun ip => a.contains ip)

/-- The whitespace class matched by the regex escape of the Go standard
library used in `extractIPFromCloudInit` (tab, newline, form feed, carriage
return, space). -/
def isGoSpace (c : Char) : Bool :=
  c = '\t' || c = '\n' || c = '\x0c' || c = '\r' || c = ' '

/-- Greedily take at most `n` leading decimal digits. -/
def takeDigitsUpTo : Nat → List Char → List Char × List Char
  | 0, cs => ([], cs)
  | _ + 1, [] => ([], [])
  | n + 1, c :: cs =>
    if c.isDigit then
      let (ds, rest) := takeDigitsUpTo n cs
      (c :: ds, rest)
    else ([], c :: cs)

/-- Match one octet of the IP pattern: one to three digits, greedily.  For a
digit run followed by a required literal, greedy matching without
backtracking agrees with the backtracking regex engine: shortening the run
still leaves a digit where the literal is required. -/
def matchOctet (cs : List Char) : Option (List Char × List Char) :=
  match takeDigitsUpTo 3 cs with
  | ([], _) => none
  | (d :: ds, rest) => some (d :: ds, rest)

/-- Match the mask of the CIDR pattern: one or two digits. -/
def matchMask (cs : List Char) : Option (List Char × List Char) :=
  match takeDigitsUpTo 2 cs with
  | ([], _) => none
  | (d :: ds, rest) => some (d :: ds, rest)

/-- Require the next character to be `c`. -/
def expectChar (c : Char) : List Char → Option (List Char)
  | d :: rest => if d = c then some rest else none
  | [] => none

/-- Match the body of the IP regex of `extractIPFromCloudInit`, four octets
separated by dots followed by a slash and a mask, and return the capture
group (the four octets with their dots, without the mask). -/
def matchIPBody (cs : List Char) : Option (List Char) := do
  let (o1, r1) ← matchOctet cs
  let r1d ← expectChar '.' r1
  let (o2, r2) ← matchOctet r1d
  let r2d ← expectChar '.' r2
  let (o3, r3) ← matchOctet r2d
  let r3d ← expectChar '.' r3
  let (o4, r4) ← matchOctet r3d
  let r5 ← expectChar '/' r4
  let (_m, _) ← matchMask r5
  pure (o1 ++ '.' :: o2 ++ '.' :: o3 ++ '.' :: o4)

/-- Greedily split off a leading run of Go whitespace characters. -/
def takeGoSpaces : List Char → List Char × List Char
  | [] => ([], [])
  | c :: cs =>
    if isGoSpace c then
      let (sp, rest) := takeGoSpaces cs
      (c :: sp, rest)
    else ([], c :: cs)

/-- Match the whitespace alternative of the regex prefix (one or more
whitespace characters) followed by the IP body.  Consuming the whole run is
again equivalent to the backtracking engine: leaving whitespace unconsumed
puts a non-digit where the first octet must start. -/
def matchWSThenBody (cs : List Char) : Option (List Char) :=
  match takeGoSpaces cs with
  | ([], _) => none
  | (_ :: _, rest) => matchIPBody rest

/-- Attempt a match of the full pattern at one position: the prefix is
either the start-of-text anchor (only available at position zero) or a
whitespace run, then the IP body. -/
def matchAtPos (atStart : Bool) (cs : List Char) : Option (List Char) :=
  match (if atStart then matchIPBody cs else none) with
  | some ip => some ip
  | none => matchWSThenBody cs

/-- Scan left to right for the leftmost position where the pattern matches,
as `FindStringSubmatch` of the Go regexp package does. -/
def findIPGo : Bool → List Char → Option (List Char)
  | _, [] => none
  | atStart, c :: cs =>
    match matchAtPos atStart (c :: cs) with
    | some ip => some ip
    | none => findIPGo false cs

/-- The regex search performed by `StepPowerOn.extractIPFromCloudInit` on one
cloud-init contents string, returning the captured address when the pattern
(start-of-text or whitespace, then an IPv4 address, a slash and a one- or
two-digit mask) occurs. -/
def ipRegexFindSubmatch (contents : String) : Option String :=
  (findIPGo true contents.data).map fun capture => String.mk capture

/-- `StepPowerOn.extractIPFromCloudInit` from config.go: walk the configured
cloud-init files, and for each file named network-config run the IP regex on
its contents; the first captured address is returned.  The Go function
returns an error when no file yields a match; that case is `none` here. -/
def extractIPFromCloudInit (files : List CloudInitFile) : Option String :=
  files.findSome? fun f =>
    if f.name = "network-config" then ipRegexFindSubmatch f.contents else none

theorem ipRegexFindSubmatch_sample_cidr :
    ipRegexFindSubmatch "addresses:\n  - 192.168.1.100/24\n" =
      some "192.168.1.100" := by decide

theorem ipRegexFindSubmatch_sample_no_mask :
    ipRegexFindSubmatch "gateway4: 192.168.1.1" = none := by decide

theorem extractIPFromCloudInit_sample :
    extractIPFromCloudInit
      [{ name := "user-data", contents := "10.0.0.1/8" },
       { name := "network-config", contents := "addr 10.2.3.4/16 end" }] =
      some "10.2.3.4" := by decide

/-- Environment of `StepVMCreate.Run`: the outcomes the remote API hands the
step.  `createVM` is the POST to the vms endpoint; `vmKeyAfterCreate` is the
opaque key the creation response carries (stored into `apiData.Id`);
`machineAfterRead` is `apiData.Machine` after the mandatory follow-up read;
`createDisk i` and `createNic i` are the create calls for the i-th disk or
NIC of the configuration, `createDisk` returning the new drive key. -/
structure VMCreateEnv where
  createVM : Except GatewayErr Unit
  vmKeyAfterCreate : String
  machineAfterRead : Int
  createDisk : Nat → Except GatewayErr String
  createNic : Nat → Except GatewayErr Unit

/-- The API data packet built for the i-th disk in `StepVMCreate.Run`: the
disk configuration with the machine reference set to the resolved id. -/
def diskDataFor (machineID : Int) (d : VmDiskConfig) : VMDiskResourceModel :=
  { machine := machineID, name := d.name, description := d.description,
    interface := d.interface, media := d.media, mediaSource := d.mediaSource,
    preferredTier := d.preferredTier, diskSize := d.diskSize,
    enabled := d.enabled, readOnly := d.readOnly, serial := d.serial,
    asset := d.asset, orderId := d.orderId,
    preserveDriveFormat := d.preserveDriveFormat }

/-- The disk-creation loop of `StepVMCreate.Run`: create each disk in
configuration order; a failure aborts at once naming the disk; for each disk
whose media is "import" the returned drive key and the request model are
captured for the waiter step. -/
def createDisksGo (createDisk : Nat → Except GatewayErr String)
    (machineID : Int) :
    Nat → List VmDiskConfig →
    Except (String × GatewayErr) (List String × List VMDiskResourceModel)
  | _, [] => .ok ([], [])
  | i, d :: ds =>
    match createDisk i with
    | .error e => .error (d.name, e)
    | .ok diskKey =>
      match createDisksGo createDisk machineID (i + 1) ds with
      | .error err => .error err
      | .ok (ks, cfgs) =>
        if d.media = "import" then
          .ok (diskKey :: ks, diskDataFor machineID d :: cfgs)
        else .ok (ks, cfgs)

/-- The NIC-creation loop of `StepVMCreate.Run`: create each NIC in order; a
failure aborts at once naming the NIC. -/
def createNicsGo (createNic : Nat → Except GatewayErr Unit) :
    Nat → List VmNicConfig → Except (String × GatewayErr) Unit
  | _, [] => .ok ()
  | i, n :: ns =>
    match createNic i with
    | .error e => .error (n.name, e)
    | .ok _ => createNicsGo createNic (i + 1) ns

/-- `StepVMCreate.Run` from step_vm_create.go.  The POST failure and the
missing-machine-id failure halt before the vm identity is stored; a disk or
NIC failure stores the error, sets the `vm_creation_failed` flag and halts
(the import-tracking keys collected so far are not stored, because the store
happens only after the whole disk loop succeeds). -/
def stepVMCreateRun (env : VMCreateEnv) (vm : VmConfig) (s : BuildState) :
    BuildState × StepAction :=
  match env.createVM with
  | .error e => ({ s with error := some (.vmPostFailed e) }, .actionHalt)
  | .ok _ =>
    if env.machineAfterRead = 0 then
      ({ s with error := some .machineIdMissing }, .actionHalt)
    else
      let s1 := { s with machine_id := some env.machineAfterRead,
                         vm_id := some env.vmKeyAfterCreate }
      match createDisksGo env.createDisk env.machineAfterRead 0
          vm.vmDiskConfigs with
      | .error (nm, e) =>
        ({ s1 with error := some (.resourceCreationFailed "disk" nm e),
                   vm_creation_failed := some true }, .actionHalt)
      | .ok (importKeys, importCfgs) =>
        let s2 :=
          if importKeys.length > 0 then
            { s1 with diskImportKeys := some importKeys,
                      diskImportConfigs := some importCfgs }
          else s1
        match createNicsGo env.createNic 0 vm.vmNicConfigs with
        | .error (nm, e) =>
          ({ s2 with error := some (.resourceCreationFailed "nic" nm e),
                     vm_creation_failed := some true }, .actionHalt)
        | .ok _ => (s2, .actionContinue)

/-- `StepVMCreate.Cleanup` from step_vm_create.go: delete the VM by its key
exactly when the key is in state and the `vm_creation_failed` flag is set to
true.  The outcome of the delete call is only logged (a failed delete warns
that manual cleanup may be required); the state, in particular the original
`error`, is never touched. -/
def stepVMCreateCleanup (deleteResult : Except GatewayErr Unit)
    (s : BuildState) : BuildState × List ApiCall :=
  match s.vm_id, s.vm_creation_failed with
  | some vmId, some true =>
    match deleteResult with
    | .error _ => (s, [.deleteVM vmId])
    | .ok _ => (s, [.deleteVM vmId])
  | _, _ => (s, [])

/-- One poll event of the disk-import waiter and its sleeps (the Go code
sleeps with fixed durations; the trace records the seconds slept). -/
inductive DriveEvent
  | settleSleep (secs : Nat)
  | pollStatus (diskKey : String) (attempt : Nat)
  | retrySleep (secs : Nat)
  | readDiskCall (diskKey : String)
  | resizeCall (diskKey : String) (sizeGB : Int)
deriving DecidableEq, Repr

/-- Whether a drive event is a status poll. -/
def isPollEvent : DriveEvent → Bool
  | .pollStatus _ _ => true
  | _ => false

/-- The ASCII lowering performed by `strings.ToLower` on the status strings
the control plane returns (they are ASCII; the Unicode cases of the Go
function never apply). -/
def asciiToLower (s : String) : String :=
  String.mk (s.data.map Char.toLower)

/-- The retry loop of `DriveApi.WaitForDiskImportCompletion` for one disk.
`check n` is the n-th status request for this disk; `fuel` is the number of
loop iterations still allowed (`maxRetries - retries`).  A failed status
check is returned at once, wrapped; a status other than "importing"
(compared case-insensitively) breaks the loop; when the incremented retry
counter reaches the bound the timeout error carries the disk key, the bound,
and the last observed status; otherwise the loop sleeps five seconds and
retries. -/
def waitOneDiskAux (check : Nat → Except GatewayErr String) (diskKey : String)
    (maxRetries : Nat) :
    Nat → Nat → Except ImportWaitErr Unit × List DriveEvent
  | 0, _ => (.ok (), [])
  | fuel + 1, retries =>
    match check retries with
    | .error e => (.error (.statusCheckFailed e), [.pollStatus diskKey retries])
    | .ok status =>
      if asciiToLower status = "importing" then
        if fuel = 0 then
          (.error (.importTimeout diskKey maxRetries status),
           [.pollStatus diskKey retries])
        else
          let r := waitOneDiskAux check diskKey maxRetries fuel (retries + 1)
          (r.1, .pollStatus diskKey retries :: .retrySleep 5 :: r.2)
      else (.ok (), [.pollStatus diskKey retries])

/-- The outer loop of `DriveApi.WaitForDiskImportCompletion`: wait for the
disks one at a time, in the order their keys were collected; the first
failure is returned at once. -/
def waitDisksGo (check : String → Nat → Except GatewayErr String)
    (maxRetries : Nat) :
    List String → Except ImportWaitErr Unit × List DriveEvent
  | [] => (.ok (), [])
  | k :: ks =>
    let r := waitOneDiskAux (check k) k maxRetries maxRetries 0
    match r.1 with
    | .error e => (.error e, r.2)
    | .ok _ =>
      let r2 := waitDisksGo check maxRetries ks
      (r2.1, r.2 ++ r2.2)

/-- `DriveApi.WaitForDiskImportCompletion` from client/drive_api.go: a no-op
for an empty key list; otherwise one fixed five-second settle sleep (letting
the control plane register the jobs) and then the per-disk retry loops. -/
def waitForDiskImportCompletion (check : String → Nat → Except GatewayErr String)
    (diskKeys : List String) (maxRetries : Nat) :
    Except ImportWaitErr Unit × List DriveEvent :=
  if diskKeys.length = 0 then (.ok (), [])
  else
    let r := waitDisksGo check maxRetries diskKeys
    (r.1, .settleSleep 5 :: r.2)

/-- Bytes per gigabyte, the unit conversion factor of the drive API. -/
def bytesPerGB : Int := 1024 * 1024 * 1024

/-- The request body built by `DriveApi.UpdateDiskSize`: the requested size
in gigabytes converted to bytes. -/
def updateDiskSizePayloadBytes (requestedSizeGB : Int) : Int :=
  requestedSizeGB * bytesPerGB

/-- The reconciliation loop of `DriveApi.CheckAndResizeImportedDisks`: walk
the keys with their positionally matching configurations (a key beyond the
configuration list is skipped, and a configuration beyond the key list is
never reached); read the disk, convert its byte size to gigabytes with the
truncating integer division of Go, and issue one resize to the requested
size exactly when the converted size differs; read and update failures are
fatal at once, naming the disk. -/
def checkAndResizeGo (readDisk : String → Except GatewayErr VMDiskResourceModel)
    (updateDiskSize : String → Int → Except GatewayErr Unit) :
    List VMDiskResourceModel → List String →
    Except ResizeErr Unit × List DriveEvent
  | _, [] => (.ok (), [])
  | [], _ :: ks => checkAndResizeGo readDisk updateDiskSize [] ks
  | c :: cs, k :: ks =>
    match readDisk k with
    | .error e => (.error (.readFailed c.name e), [.readDiskCall k])
    | .ok currentDisk =>
      let currentSizeGB := currentDisk.diskSize.tdiv bytesPerGB
      if currentSizeGB ≠ c.diskSize then
        match updateDiskSize k c.diskSize with
        | .error e =>
          (.error (.resizeFailed c.name e),
           [.readDiskCall k, .resizeCall k c.diskSize])
        | .ok _ =>
          let r := checkAndResizeGo readDisk updateDiskSize cs ks
          (r.1, .readDiskCall k :: .resizeCall k c.diskSize :: r.2)
      else
        let r := checkAndResizeGo readDisk updateDiskSize cs ks
        (r.1, .readDiskCall k :: r.2)

/-- `DriveApi.CheckAndResizeImportedDisks` from client/drive_api.go.  (The
Go function also builds a name-to-size map from the configurations that the
rest of the function never consults; that dead map has no observable effect
and is not modelled.) -/
def checkAndResizeImportedDisks
    (readDisk : String → Except GatewayErr VMDiskResourceModel)
    (updateDiskSize : String → Int → Except GatewayErr Unit)
    (diskConfigs : List VMDiskResourceModel) (diskKeys : List String) :
    Except ResizeErr Unit × List DriveEvent :=
  if diskConfigs.length = 0 ∨ diskKeys.length = 0 then (.ok (), [])
  else checkAndResizeGo readDisk updateDiskSize diskConfigs diskKeys

/-- Environment of the disk-import waiter step: the remote results of the
status polls, disk reads, and size updates. -/
structure DriveEnv where
  check : String → Nat → Except GatewayErr String
  readDisk : String → Except GatewayErr VMDiskResourceModel
  updateDiskSize : String → Int → Except GatewayErr Unit

/-- `StepWaitForDiskImport.Run` from step_vm_create.go: a no-op when no
tracked import-disk keys are in state; otherwise wait for completion with a
retry bound of 20 (a waiter error is fatal), then, when the tracked
configurations are in state, reconcile the sizes (a reconciliation error is
fatal). -/
def stepWaitForDiskImportRun (denv : DriveEnv) (s : BuildState) :
    BuildState × StepAction :=
  match s.diskImportKeys with
  | none => (s, .actionContinue)
  | some keys =>
    if keys.length = 0 then (s, .actionContinue)
    else
      match (waitForDiskImportCompletion denv.check keys 20).1 with
      | .error e => ({ s with error := some (.diskImportFailed e) }, .actionHalt)
      | .ok _ =>
        match s.diskImportConfigs with
        | none => (s, .actionContinue)
        | some configs =>
          if configs.length = 0 then (s, .actionContinue)
          else
            match (checkAndResizeImportedDisks denv.readDisk
                denv.updateDiskSize configs keys).1 with
            | .error e =>
              ({ s with error := some (.diskResizeFailed e) }, .actionHalt)
            | .ok _ => (s, .actionContinue)

/-- Outcome of the running-state polling loop of `StepPowerOn.Run`. -/
inductive PowerPollOutcome
  | reachedRunning (tick : Nat)
  | timedOut
deriving DecidableEq, Repr

/-- The running-state polling loop of `StepPowerOn.Run`: one
`IsVMRunning` request per five-second tick until the power-on timeout.
`isVMRunning t` is the request at tick `t` (a nil-able boolean, as the API
returns a pointer); `fuel` is the number of ticks the timeout still allows.
A failed request is logged and the loop continues with the next tick; only a
non-nil true answer ends the loop. -/
def pollRunningState (isVMRunning : Nat → Except GatewayErr (Option Bool)) :
    Nat → Nat → PowerPollOutcome
  | 0, _ => .timedOut
  | fuel + 1, t =>
    match isVMRunning t with
    | .error _ => pollRunningState isVMRunning fuel (t + 1)
    | .ok (some true) => .reachedRunning t
    | .ok _ => pollRunningState isVMRunning fuel (t + 1)

/-- Environment of `StepPowerOn.Run`: the outcome of the power-on action
POST, the per-tick running-state reads, and the tick budget the configured
power-on timeout allows. -/
structure PowerOnInput where
  powerOnResult : Except GatewayErr Unit
  isVMRunning : Nat → Except GatewayErr (Option Bool)
  powerOnTimeoutTicks : Nat

/-- `StepPowerOn.Run` from config.go.  A missing vm key halts; a failed
power-on POST halts; a poll timeout stores the timeout error, sets the
`vm_power_on_failed` flag and halts.  Once the VM reports running the step
sets `vm_powered_on` and resolves an address: a static IP extracted from the
network-config cloud-init file is stored as host (with the one-element
discovered list) at once; with no static IP the step continues only when the
guest agent is enabled in the VM configuration and otherwise halts with the
no-discovery-method error. -/
def stepPowerOnRun (inp : PowerOnInput) (cfg : VmConfig) (s : BuildState) :
    BuildState × StepAction :=
  match s.vm_id with
  | none => ({ s with error := some .vmIdMissing }, .actionHalt)
  | some _ =>
    match inp.powerOnResult with
    | .error e => ({ s with error := some (.powerOnFailed e) }, .actionHalt)
    | .ok _ =>
      match pollRunningState inp.isVMRunning inp.powerOnTimeoutTicks 0 with
      | .timedOut =>
        ({ s with error := some .powerOnTimeout,
                  vm_power_on_failed := some true }, .actionHalt)
      | .reachedRunning _ =>
        let s1 := { s with vm_powered_on := some true }
        match extractIPFromCloudInit cfg.cloudInitFiles with
        | some ip =>
          ({ s1 with host := some ip, discovered_ips := some [ip] },
           .actionContinue)
        | none =>
          if cfg.guestAgent then (s1, .actionContinue)
          else ({ s1 with error := some .noAddressDiscovery }, .actionHalt)

/-- `StepPowerOn.Cleanup` from config.go: every branch only writes log
messages; no state key is written and no API call is made (in particular,
after a power-on failure it defers deletion to `StepVMCreate`). -/
def stepPowerOnCleanup (s : BuildState) : BuildState × List ApiCall :=
  (s, [])

/-- Outcome of the discovery phase of `StepWaitForIP.Run`. -/
inductive DiscoverOutcome
  | found (tick : Nat) (ips : List String)
  | timedOut
deriving DecidableEq, Repr

/-- The discovery phase of `StepWaitForIP.Run`: one guest-agent query per
tick (the initial check and then the fifteen-second ticker) until the wait
timeout.  A failed query and an empty address list both continue with the
next tick; the first non-empty list ends the phase. -/
def discoverIPs (getIPs : Nat → Except GatewayErr (List String)) :
    Nat → Nat → DiscoverOutcome
  | 0, _ => .timedOut
  | fuel + 1, t =>
    match getIPs t with
    | .error _ => discoverIPs getIPs fuel (t + 1)
    | .ok [] => discoverIPs getIPs fuel (t + 1)
    | .ok (ip :: rest) => .found t (ip :: rest)

/-- Outcome of the stabilisation phase of `StepWaitForIP.Run`.
`fuelExhausted` marks that the modelled poll budget ran out with the
address set still changing on every poll; no theorem below concludes
anything from it. -/
inductive SettleOutcome
  | settled (ips : List String)
  | agentLost
  | fuelExhausted
deriving DecidableEq, Repr

/-- The stabilisation phase of `StepWaitForIP.Run` (the for-select loop of
step_wait_for_ip.go): one guest-agent query per five-second ticker tick.  A
failed query is fatal (the agent connection was lost during the settle
period).  A changed address set (compared with `ipSlicesEqual`) stores the
new set, restarts the settle timeout and continues the loop; `restarts`
counts those continues.  An unchanged address set falls out of the select
into the unconditional break at the bottom of the loop body, so the loop
concludes at the FIRST unchanged re-poll with the current set; only the
changed branch ever loops again.  The settle-timeout case of the select
concludes with the same current set, so ticker iterations model both
non-fatal exits.  `fuel` bounds the modelled polls; it runs out only when
every poll changes the set. -/
def settleLoop (getIPs : Nat → Except GatewayErr (List String)) :
    Nat → Nat → List String → Nat → SettleOutcome × Nat
  | 0, _, _, restarts => (.fuelExhausted, restarts)
  | fuel + 1, t, last, restarts =>
    match getIPs t with
    | .error _ => (.agentLost, restarts)
    | .ok cur =>
      if ipSlicesEqual cur last then (.settled last, restarts)
      else settleLoop getIPs fuel (t + 1) cur (restarts + 1)

/-- Phase 3 of `StepWaitForIP.Run`: an empty stable set is fatal; otherwise
the first address of the stable set becomes the host and the full set is
stored for reference. -/
def stepWaitForIPFinalize (discovered : List String) (s : BuildState) :
    BuildState × StepAction :=
  match discovered with
  | [] => ({ s with error := some .noIPsDiscovered }, .actionHalt)
  | ip :: _ =>
    ({ s with host := some ip, discovered_ips := some discovered },
     .actionContinue)

/-- Outcome of waiting for the remote shutdown command: the shutdown
timeout elapsed first, or the command finished with an exit status. -/
inductive WaitOutcome
  | timedOut
  | exited (status : Int)
deriving DecidableEq, Repr

/-- Environment of `StepShutdown.Run`: presence of the communicator in
state, the outcome of starting the remote command, the outcome of waiting
for it, whether the build was cancelled during the 30-second drain wait, the
power-state verification read, and the outcome of the forced power-off
action.  The verification read is only logged by the Go code (still-running
is a warning, a failed read is assumed success), so `verifyResult` is
carried for completeness but decides nothing. -/
structure ShutdownInput where
  communicatorPresent : Bool := true
  startResult : Except GatewayErr Unit := .ok ()
  waitOutcome : WaitOutcome := .exited 0
  cancelledDuringDrain : Bool := false
  verifyResult : Except GatewayErr (Option Bool) := .ok (some false)
  forcedOffResult : Except GatewayErr Unit := .ok ()

/-- `StepShutdown.performForcedShutdown` from config.go: without a vm key
the step continues with a warning; otherwise one kill power action is
issued; its failure is only a warning and the step continues either way,
setting the completion flag only on success. -/
def performForcedShutdown (inp : ShutdownInput) (vmIdStr : String)
    (s : BuildState) : BuildState × StepAction × List ApiCall :=
  if vmIdStr = "" then (s, .actionContinue, [])
  else
    match inp.forcedOffResult with
    | .error _ => (s, .actionContinue, [.powerAction vmIdStr "kill"])
    | .ok _ =>
      ({ s with vm_shutdown_completed := some true }, .actionContinue,
       [.powerAction vmIdStr "kill"])

/-- `StepShutdown.Run` from config.go.  No configured command skips the
step; a missing communicator continues with a warning; a failed command
start, a wait timeout and a non-zero exit status all fall through to the
forced shutdown; a zero exit status drains for 30 seconds (a build
cancellation during the drain halts) and then verifies the power state,
whose result is only logged, and the step completes. -/
def stepShutdownRun (command : String) (inp : ShutdownInput) (s : BuildState) :
    BuildState × StepAction × List ApiCall :=
  if command = "" then (s, .actionContinue, [])
  else if inp.communicatorPresent = false then (s, .actionContinue, [])
  else
    let vmIdStr := s.vm_id.getD ""
    match inp.startResult with
    | .error _ => performForcedShutdown inp vmIdStr s
    | .ok _ =>
      match inp.waitOutcome with
      | .timedOut => performForcedShutdown inp vmIdStr s
      | .exited status =>
        if status ≠ 0 then performForcedShutdown inp vmIdStr s
        else if inp.cancelledDuringDrain then (s, .actionHalt, [])
        else
          ({ s with vm_shutdown_completed := some true }, .actionContinue,
           if vmIdStr = "" then [] else [.getRunningState vmIdStr])

/-- The steps of the builder pipeline (builder.go) plus the two steps that
exist in the source but are not appended to the pipeline list:
`stepWaitForIP` (its append is commented out) appears here so that its
absence from the pipeline can be stated. -/
inductive StepId
  | stepVMCreate
  | stepWaitForDiskImport
  | stepPowerOn
  | stepConnect
  | stepProvision
  | stepShutdown
  | stepWaitForIP
deriving DecidableEq, Repr

/-- The step list assembled by `Builder.Run` in builder.go, in append
order.  The guest-agent IP discovery step is temporarily disabled in the
source (its append is commented out) and therefore absent. -/
def builderSteps : List StepId :=
  [.stepVMCreate, .stepWaitForDiskImport, .stepPowerOn, .stepConnect,
   .stepProvision, .stepShutdown]

/-- Which step's Run method queries the guest agent for IP addresses
(`VMApi.GetGuestAgentIPs`): only `StepWaitForIP` does; `StepConnect` and
`StepProvision` are SDK steps that go through the host function instead. -/
def stepPollsGuestAgent : StepId → Bool
  | .stepWaitForIP => true
  | _ => false

/-- `Builder.getHostFunc` from builder.go: read the host key of the state
bag; a missing key is an error telling the user IP discovery may have
failed. -/
def getHostFunc (s : BuildState) : Except String String :=
  match s.host with
  | none => .error "no host found in state - IP discovery may have failed"
  | some h => .ok h

theorem ipSlicesEqual_iff (a b : List String) :
    ipSlicesEqual a b = true ↔
      a.length = b.length ∧ ∀ x, x ∈ a ↔ x ∈ b := by
  constructor
  · intro h
    have hlen : a.length = b.length := by
      by_contra hne
      unfold ipSlicesEqual at h
      rw [if_pos hne] at h
      cases h
    refine ⟨hlen, ?_⟩
    unfold ipSlicesEqual at h
    rw [if_neg (by simp [hlen])] at h
    simp only [Bool.and_eq_true, List.all_eq_true, List.contains,
      List.elem_iff] at h
    exact fun x => ⟨fun hx => h.1 x hx, fun hx => h.2 x hx⟩
  · rintro ⟨hlen, hmem⟩
    unfold ipSlicesEqual
    rw [if_neg (by simp [hlen])]
    simp only [Bool.and_eq_true, List.all_eq_true, List.contains,
      List.elem_iff]
    exact ⟨fun x hx => (hmem x).1 hx, fun x hx => (hmem x).2 hx⟩

/-- C10: `ipSlicesEqual` returns true exactly when the two slices have equal
length and equal underlying sets; it is symmetric and invariant under
permutation of either slice, so a settle re-poll returning the same
addresses in a different order compares equal and takes the concluding
(non-restart) exit of the settle loop: the window is never restarted. -/
theorem c10_ip_slice_comparison :
    (∀ a b : List String,
      ipSlicesEqual a b = true ↔
        a.length = b.length ∧ ∀ x, x ∈ a ↔ x ∈ b)
  ∧ (∀ a b : List String, ipSlicesEqual a b = ipSlicesEqual b a)
  ∧ (∀ a a' b : List String, a.Perm a' →
      ipSlicesEqual a b = ipSlicesEqual a' b)
  ∧ (∀ a b b' : List String, b.Perm b' →
      ipSlicesEqual a b = ipSlicesEqual a b')
  ∧ (∀ (getIPs : Nat → Except GatewayErr (List String))
       (fuel t restarts : Nat) (last cur : List String),
      getIPs t = .ok cur → cur.Perm last →
      settleLoop getIPs (fuel + 1) t last restarts =
        (.settled last, restarts)) := by
  have hsymm : ∀ a b : List String, ipSlicesEqual a b = ipSlicesEqual b a := by
    intro a b
    by_cases h : ipSlicesEqual a b = true
    · have h' := (ipSlicesEqual_iff a b).1 h
      rw [h, Eq.symm ((ipSlicesEqual_iff b a).2
        ⟨h'.1.symm, fun x => (h'.2 x).symm⟩)]
    · by_cases h2 : ipSlicesEqual b a = true
      · have h' := (ipSlicesEqual_iff b a).1 h2
        exact absurd ((ipSlicesEqual_iff a b).2
          ⟨h'.1.symm, fun x => (h'.2 x).symm⟩) h
      · rw [Bool.eq_false_iff.2 (fun hc => h hc),
          Bool.eq_false_iff.2 (fun hc => h2 hc)]
  have hpermL : ∀ a a' b : List String, a.Perm a' →
      ipSlicesEqual a b = ipSlicesEqual a' b := by
    intro a a' b hp
    by_cases h : ipSlicesEqual a b = true
    · have h' := (ipSlicesEqual_iff a b).1 h
      rw [h, Eq.symm ((ipSlicesEqual_iff a' b).2
        ⟨hp.length_eq ▸ h'.1, fun x => Iff.trans (hp.mem_iff).symm (h'.2 x)⟩)]
    · by_cases h2 : ipSlicesEqual a' b = true
      · have h' := (ipSlicesEqual_iff a' b).1 h2
        exact absurd ((ipSlicesEqual_iff a b).2
          ⟨hp.length_eq.symm ▸ h'.1, fun x =>
            Iff.trans (hp.mem_iff) (h'.2 x)⟩) h
      · rw [Bool.eq_false_iff.2 (fun hc => h hc),
          Bool.eq_false_iff.2 (fun hc => h2 hc)]
  refine ⟨ipSlicesEqual_iff, hsymm, hpermL, ?_, ?_⟩
  · intro a b b' hp
    rw [hsymm a b, hsymm a b']
    exact hpermL b b' a hp
  · intro getIPs fuel t restarts last cur hget hperm
    have heq : ipSlicesEqual cur last = true :=
      (ipSlicesEqual_iff cur last).2
        ⟨hperm.length_eq, fun x => hperm.mem_iff⟩
    nth_rewrite 1 [settleLoop]
    rw [hget]
    dsimp only
    rw [if_pos heq]

/-- Witness for C10: a settle re-poll observing the same two addresses in
the opposite order compares equal and concludes the settle phase with the
unchanged set and no restart. -/
theorem c10_witness :
    settleLoop (fun _ => .ok ["10.0.0.2", "10.0.0.1"]) 1 0
        ["10.0.0.1", "10.0.0.2"] 0 =
      (.settled ["10.0.0.1", "10.0.0.2"], 0) :=
  c10_ip_slice_comparison.2.2.2.2 (fun _ => .ok ["10.0.0.2", "10.0.0.1"])
    0 0 0 ["10.0.0.1", "10.0.0.2"] ["10.0.0.2", "10.0.0.1"]
    rfl (by decide)

theorem stepVMCreateCleanup_eq (deleteResult : Except GatewayErr Unit)
    (s : BuildState) :
    stepVMCreateCleanup deleteResult s =
      (s, match s.vm_id, s.vm_creation_failed with
          | some k, some true => [ApiCall.deleteVM k]
          | _, _ => []) := by
  unfold stepVMCreateCleanup
  rcases hv : s.vm_id with - | k <;>
    rcases hf : s.vm_creation_failed with - | b
  · rfl
  · cases b <;> rfl
  · rfl
  · cases b
    · rfl
    · cases deleteResult <;> rfl

/-- C2: the rollback of the resource-creation step runs only when the
failure flag is set and a vm identity is in state; it then issues exactly
one VM-delete call and never a per-disk delete; the delete outcome leaves
the state, hence the original creation error, untouched; and a disk-create
failure after VM creation indeed leaves the state in exactly that
flagged-with-identity shape with the creation error recorded. -/
theorem c2_rollback_exactly_one_delete :
    (∀ (deleteResult : Except GatewayErr Unit) (s : BuildState),
      (stepVMCreateCleanup deleteResult s).2 ≠ [] →
        s.vm_creation_failed = some true ∧ ∃ k, s.vm_id = some k)
  ∧ (∀ (deleteResult : Except GatewayErr Unit) (s : BuildState) (k : String),
      s.vm_id = some k → s.vm_creation_failed = some true →
        (stepVMCreateCleanup deleteResult s).2 = [ApiCall.deleteVM k])
  ∧ (∀ (deleteResult : Except GatewayErr Unit) (s : BuildState) (dk : String),
      ApiCall.deleteDisk dk ∉ (stepVMCreateCleanup deleteResult s).2)
  ∧ (∀ (deleteResult : Except GatewayErr Unit) (s : BuildState),
      (stepVMCreateCleanup deleteResult s).1 = s)
  ∧ (∀ (env : VMCreateEnv) (vm : VmConfig) (s : BuildState)
       (nm : String) (e : GatewayErr),
      env.createVM = .ok () → env.machineAfterRead ≠ 0 →
      createDisksGo env.createDisk env.machineAfterRead 0 vm.vmDiskConfigs =
        .error (nm, e) →
        ((stepVMCreateRun env vm s).1).vm_creation_failed = some true ∧
        ((stepVMCreateRun env vm s).1).vm_id = some env.vmKeyAfterCreate ∧
        ((stepVMCreateRun env vm s).1).error =
          some (.resourceCreationFailed "disk" nm e)) := by
  refine ⟨?_, ?_, ?_, ?_, ?_⟩
  · intro deleteResult s hne
    rw [stepVMCreateCleanup_eq] at hne
    rcases hv : s.vm_id with - | k <;>
      rcases hf : s.vm_creation_failed with - | b <;>
      rw [hv, hf] at hne
    · exact absurd rfl hne
    · cases b
      · exact absurd rfl hne
      · exact absurd rfl hne
    · exact absurd rfl hne
    · cases b
      · exact absurd rfl hne
      · exact ⟨rfl, k, rfl⟩
  · intro deleteResult s k hv hf
    rw [stepVMCreateCleanup_eq, hv, hf]
  · intro deleteResult s dk
    rw [stepVMCreateCleanup_eq]
    rcases hv : s.vm_id with - | k <;>
      rcases hf : s.vm_creation_failed with - | b
    · simp
    · cases b <;> simp
    · simp
    · cases b <;> simp
  · intro deleteResult s
    rw [stepVMCreateCleanup_eq]
  · intro env vm s nm e hcv hm hdisks
    unfold stepVMCreateRun
    rw [hcv, if_neg hm, hdisks]
    exact ⟨rfl, rfl, rfl⟩

/-- Witness for C2: a state flagged by a failed disk creation with identity
vm-9 yields exactly one delete of vm-9 during cleanup even when the delete
itself fails, and the state (with its original creation error) is kept. -/
theorem c2_witness :
    (stepVMCreateCleanup (.error (.requestFailed "delete refused"))
        { vm_id := some "vm-9", vm_creation_failed := some true,
          error := some (.resourceCreationFailed "disk" "data0"
            (.httpStatus 500)) }).2 = [ApiCall.deleteVM "vm-9"] ∧
    (stepVMCreateCleanup (.error (.requestFailed "delete refused"))
        { vm_id := some "vm-9", vm_creation_failed := some true,
          error := some (.resourceCreationFailed "disk" "data0"
            (.httpStatus 500)) }).1.error =
      some (.resourceCreationFailed "disk" "data0" (.httpStatus 500)) :=
  ⟨c2_rollback_exactly_one_delete.2.1 _ _ "vm-9" rfl rfl,
   by rw [c2_rollback_exactly_one_delete.2.2.2.1]⟩

theorem performForcedShutdown_never_fatal (inp : ShutdownInput)
    (vmIdStr : String) (s : BuildState) :
    (performForcedShutdown inp vmIdStr s).2.1 = .actionContinue ∧
    ((performForcedShutdown inp vmIdStr s).1).error = s.error := by
  unfold performForcedShutdown
  by_cases hv : vmIdStr = ""
  · simp [hv]
  · cases hfo : inp.forcedOffResult <;> simp [hv, hfo]

/-- C3: with a configured command and no build cancellation during the
drain wait, the shutdown step always returns continue and never records a
build error, over every combination of command-start outcome, exit status,
verification result and forced power-off outcome; with no configured
command the step is skipped with no state change and no API call. -/
theorem c3_shutdown_totality :
    (∀ (command : String) (inp : ShutdownInput) (s : BuildState),
      command ≠ "" → inp.cancelledDuringDrain = false →
        (stepShutdownRun command inp s).2.1 = .actionContinue ∧
        ((stepShutdownRun command inp s).1).error = s.error)
  ∧ (∀ (inp : ShutdownInput) (s : BuildState),
      stepShutdownRun "" inp s = (s, .actionContinue, [])) := by
  constructor
  · intro command inp s hcmd hcancel
    unfold stepShutdownRun
    rw [if_neg hcmd]
    by_cases hcp : inp.communicatorPresent = false
    · simp [hcp]
    · rw [if_neg hcp]
      cases hsr : inp.startResult with
      | error e => exact performForcedShutdown_never_fatal inp _ s
      | ok u =>
        cases hwo : inp.waitOutcome with
        | timedOut => exact performForcedShutdown_never_fatal inp _ s
        | exited status =>
          by_cases hst : status = 0
          · subst hst
            by_cases hv : s.vm_id.getD "" = "" <;> simp [hcancel, hv]
          · dsimp only
            rw [if_pos hst]
            exact performForcedShutdown_never_fatal inp _ s
  · intro inp s
    unfold stepShutdownRun
    rw [if_pos rfl]

/-- Witness for C3: a shutdown command that exits with status 1 and a
forced power-off that itself fails still ends the step with continue and
leaves the error key of the state untouched. -/
theorem c3_witness :
    (stepShutdownRun "shutdown -P now"
        { waitOutcome := .exited 1,
          forcedOffResult := .error (.httpStatus 500) }
        { vm_id := some "vm-3" }).2.1 = .actionContinue ∧
    ((stepShutdownRun "shutdown -P now"
        { waitOutcome := .exited 1,
          forcedOffResult := .error (.httpStatus 500) }
        { vm_id := some "vm-3" }).1).error = none :=
  c3_shutdown_totality.1 "shutdown -P now"
    { waitOutcome := .exited 1, forcedOffResult := .error (.httpStatus 500) }
    { vm_id := some "vm-3" } (by decide) rfl

/-- The build state after a created VM (key vm-123) fails to reach the
running state within the power-on timeout: the poll always reports not
running and the tick budget runs out. -/
def powerOnTimeoutState : BuildState :=
  (stepPowerOnRun
    { powerOnResult := .ok (),
      isVMRunning := fun _ => .ok (some false),
      powerOnTimeoutTicks := 2 }
    { name := "build-vm" }
    { vm_id := some "vm-123", machine_id := some 42 }).1

/-- C1: after a power-on timeout the failure is marked only under the
`vm_power_on_failed` key, while the resource-creation rollback of
`StepVMCreate.Cleanup` fires only on the `vm_creation_failed` key: during
cleanup no delete call is issued at all (`StepPowerOn.Cleanup` issues none
either), so the parent VM is not deleted, contradicting the claim and the
comments of the source. -/
theorem c1_power_on_failure_rollback_never_fires :
    powerOnTimeoutState.vm_power_on_failed = some true ∧
    powerOnTimeoutState.error = some .powerOnTimeout ∧
    powerOnTimeoutState.vm_creation_failed = none ∧
    powerOnTimeoutState.vm_id = some "vm-123" ∧
    (stepVMCreateCleanup (.ok ()) powerOnTimeoutState).2 = [] ∧
    (stepPowerOnCleanup powerOnTimeoutState).2 = [] :=
  ⟨rfl, rfl, rfl, rfl, rfl, rfl⟩

/-- C4: after the VM reports running, a static IPv4/CIDR address found in a
network-config cloud-init payload is stored as the host (with the
one-element discovered list) at once and the step continues, while no step
of the assembled pipeline polls the guest agent at all; with no such
address and the guest agent disabled in the VM configuration the step halts
with the no-discovery-method error. -/
theorem c4_static_address_precedence :
    (∀ (inp : PowerOnInput) (cfg : VmConfig) (s : BuildState)
       (k : String) (t : Nat) (ip : String),
      s.vm_id = some k → inp.powerOnResult = .ok () →
      pollRunningState inp.isVMRunning inp.powerOnTimeoutTicks 0 =
        .reachedRunning t →
      extractIPFromCloudInit cfg.cloudInitFiles = some ip →
        stepPowerOnRun inp cfg s =
          ({ s with vm_powered_on := some true, host := some ip,
                    discovered_ips := some [ip] }, .actionContinue))
  ∧ (∀ st ∈ builderSteps, stepPollsGuestAgent st = false)
  ∧ (∀ (inp : PowerOnInput) (cfg : VmConfig) (s : BuildState)
       (k : String) (t : Nat),
      s.vm_id = some k → inp.powerOnResult = .ok () →
      pollRunningState inp.isVMRunning inp.powerOnTimeoutTicks 0 =
        .reachedRunning t →
      extractIPFromCloudInit cfg.cloudInitFiles = none →
      cfg.guestAgent = false →
        stepPowerOnRun inp cfg s =
          ({ s with vm_powered_on := some true,
                    error := some .noAddressDiscovery }, .actionHalt)) := by
  refine ⟨?_, by decide, ?_⟩
  · intro inp cfg s k t ip hv hpo hpoll hip
    unfold stepPowerOnRun
    rw [hv, hpo, hpoll, hip]
  · intro inp cfg s k t hv hpo hpoll hip hga
    unfold stepPowerOnRun
    rw [hv, hpo, hpoll, hip, hga]
    rfl

/-- Witness for C4: a network-config payload carrying 192.168.7.20/24 makes
the power-on step store 192.168.7.20 as the host and continue. -/
theorem c4_witness :
    stepPowerOnRun
        { powerOnResult := .ok (),
          isVMRunning := fun _ => .ok (some true),
          powerOnTimeoutTicks := 1 }
        { guestAgent := false,
          cloudInitFiles :=
            [{ name := "network-config",
               contents := "addresses:\n  - 192.168.7.20/24\n" }] }
        { vm_id := some "vm-4" } =
      ({ vm_id := some "vm-4", vm_powered_on := some true,
         host := some "192.168.7.20",
         discovered_ips := some ["192.168.7.20"] }, .actionContinue) :=
  c4_static_address_precedence.1
    { powerOnResult := .ok (),
      isVMRunning := fun _ => .ok (some true),
      powerOnTimeoutTicks := 1 }
    { guestAgent := false,
      cloudInitFiles :=
        [{ name := "network-config",
           contents := "addresses:\n  - 192.168.7.20/24\n" }] }
    { vm_id := some "vm-4" } "vm-4" 0 "192.168.7.20"
    rfl rfl (by decide) (by decide)

theorem stepVMCreateRun_host_eq (env : VMCreateEnv) (vm : VmConfig)
    (s : BuildState) : ((stepVMCreateRun env vm s).1).host = s.host := by
  unfold stepVMCreateRun
  rcases hcv : env.createVM with e | u
  · rfl
  · by_cases hm : env.machineAfterRead = 0
    · rw [if_pos hm]
    · rw [if_neg hm]
      rcases hd : createDisksGo env.createDisk env.machineAfterRead 0
          vm.vmDiskConfigs with ⟨nm, e⟩ | ⟨ks, cfgs⟩
      · rfl
      · dsimp only
        by_cases hk : ks.length > 0 <;>
          [rw [if_pos hk]; rw [if_neg hk]] <;>
          rcases hn : createNicsGo env.createNic 0 vm.vmNicConfigs with
            ⟨nm, e⟩ | u2 <;> rfl

theorem stepWaitForDiskImportRun_host_eq (denv : DriveEnv) (s : BuildState) :
    ((stepWaitForDiskImportRun denv s).1).host = s.host := by
  unfold stepWaitForDiskImportRun
  rcases hk : s.diskImportKeys with - | keys
  · rfl
  · dsimp only
    by_cases hlen : keys.length = 0
    · rw [if_pos hlen]
    · rw [if_neg hlen]
      rcases hw : (waitForDiskImportCompletion denv.check keys 20).1 with e | u
      · rfl
      · dsimp only
        rcases hc : s.diskImportConfigs with - | configs
        · rfl
        · dsimp only
          by_cases hlc : configs.length = 0
          · rw [if_pos hlc]
          · rw [if_neg hlc]
            rcases hr : (checkAndResizeImportedDisks denv.readDisk
              denv.updateDiskSize configs keys).1 with e | u2 <;> rfl

theorem stepPowerOnRun_host_eq_of_no_static (inp : PowerOnInput)
    (cfg : VmConfig) (s : BuildState)
    (hip : extractIPFromCloudInit cfg.cloudInitFiles = none) :
    ((stepPowerOnRun inp cfg s).1).host = s.host := by
  unfold stepPowerOnRun
  rcases hv : s.vm_id with - | k
  · rfl
  · rcases hpo : inp.powerOnResult with e | u
    · rfl
    · rcases hpoll : pollRunningState inp.isVMRunning
          inp.powerOnTimeoutTicks 0 with t | -
      · rw [hip]
        dsimp only
        by_cases hga : cfg.guestAgent = true <;> simp [hga]
      · rfl

theorem stepShutdownRun_host_eq (command : String) (inp : ShutdownInput)
    (s : BuildState) : ((stepShutdownRun command inp s).1).host = s.host := by
  have hforce : ∀ vmIdStr,
      ((performForcedShutdown inp vmIdStr s).1).host = s.host := by
    intro vmIdStr
    unfold performForcedShutdown
    by_cases hv : vmIdStr = ""
    · rw [if_pos hv]
    · rw [if_neg hv]
      rcases inp.forcedOffResult with e | u <;> rfl
  unfold stepShutdownRun
  by_cases hcmd : command = ""
  · rw [if_pos hcmd]
  · rw [if_neg hcmd]
    by_cases hcp : inp.communicatorPresent = false
    · rw [if_pos hcp]
    · rw [if_neg hcp]
      rcases hsr : inp.startResult with e | u
      · exact hforce _
      · rcases hwo : inp.waitOutcome with - | status
        · exact hforce _
        · dsimp only
          by_cases hst : status ≠ 0
          · rw [if_pos hst]
            exact hforce _
          · rw [if_neg hst]
            by_cases hcd : inp.cancelledDuringDrain = true <;> simp [hcd]

/-- C9: the assembled pipeline contains no guest-agent IP-discovery step,
every pipeline step of this repository leaves the host key unchanged when
static extraction finds no address (regardless of the guest-agent flag), and
the host-lookup function handed to the SDK connect step errors on a state
without a host. -/
theorem c9_no_ip_step_host_lookup_fails :
    StepId.stepWaitForIP ∉ builderSteps
  ∧ (∀ (env : VMCreateEnv) (vm : VmConfig) (s : BuildState),
      ((stepVMCreateRun env vm s).1).host = s.host)
  ∧ (∀ (denv : DriveEnv) (s : BuildState),
      ((stepWaitForDiskImportRun denv s).1).host = s.host)
  ∧ (∀ (inp : PowerOnInput) (cfg : VmConfig) (s : BuildState),
      extractIPFromCloudInit cfg.cloudInitFiles = none →
      ((stepPowerOnRun inp cfg s).1).host = s.host)
  ∧ (∀ (command : String) (inp : ShutdownInput) (s : BuildState),
      ((stepShutdownRun command inp s).1).host = s.host)
  ∧ (∀ s : BuildState, s.host = none →
      getHostFunc s =
        .error "no host found in state - IP discovery may have failed") := by
  refine ⟨by decide, stepVMCreateRun_host_eq, stepWaitForDiskImportRun_host_eq,
    ?_, stepShutdownRun_host_eq, ?_⟩
  · intro inp cfg s hip
    exact stepPowerOnRun_host_eq_of_no_static inp cfg s hip
  · intro s hh
    unfold getHostFunc
    rw [hh]

/-- Witness for C9: with a cloud-init payload that carries no CIDR address
and the guest agent enabled, the power-on step leaves the host key absent,
and the host lookup on the resulting state errors. -/
theorem c9_witness :
    ((stepPowerOnRun
        { powerOnResult := .ok (),
          isVMRunning := fun _ => .ok (some true),
          powerOnTimeoutTicks := 1 }
        { guestAgent := true,
          cloudInitFiles :=
            [{ name := "network-config", contents := "dhcp4: true" }] }
        { vm_id := some "vm-9" }).1).host = none ∧
    getHostFunc { vm_id := some "vm-9" } =
      .error "no host found in state - IP discovery may have failed" :=
  ⟨by
    rw [c9_no_ip_step_host_lookup_fails.2.2.2.1
      { powerOnResult := .ok (),
        isVMRunning := fun _ => .ok (some true),
        powerOnTimeoutTicks := 1 }
      { guestAgent := true,
        cloudInitFiles :=
          [{ name := "network-config", contents := "dhcp4: true" }] }
      { vm_id := some "vm-9" } (by decide)],
   c9_no_ip_step_host_lookup_fails.2.2.2.2.2 { vm_id := some "vm-9" } rfl⟩

theorem waitOneDiskAux_pollCount_le (check : Nat → Except GatewayErr String)
    (k : String) (m : Nat) : ∀ fuel retries,
    ((waitOneDiskAux check k m fuel retries).2.countP isPollEvent) ≤ fuel := by
  intro fuel
  induction fuel with
  | zero => intro retries; simp [waitOneDiskAux]
  | succ f ih =>
    intro retries
    unfold waitOneDiskAux
    rcases hc : check retries with e | status
    · simp [isPollEvent]
    · dsimp only
      by_cases him : asciiToLower status = "importing"
      · rw [if_pos him]
        by_cases hf : f = 0
        · rw [if_pos hf]
          simp [isPollEvent]
        · rw [if_neg hf]
          dsimp only
          have hih := ih (retries + 1)
          simp [List.countP_cons, isPollEvent]
          omega
      · rw [if_neg him]
        simp [isPollEvent]

theorem waitOneDiskAux_timeout (check : Nat → Except GatewayErr String)
    (k : String) (m : Nat) (sf : Nat → String) : ∀ fuel retries, 0 < fuel →
    (∀ j, retries ≤ j → j < retries + fuel →
      check j = .ok (sf j) ∧ asciiToLower (sf j) = "importing") →
    (waitOneDiskAux check k m fuel retries).1 =
      .error (.importTimeout k m (sf (retries + fuel - 1))) := by
  intro fuel
  induction fuel with
  | zero => intro retries hpos; exact absurd hpos (by omega)
  | succ f ih =>
    intro retries hpos hall
    obtain ⟨hc, him⟩ := hall retries (Nat.le_refl _) (by omega)
    unfold waitOneDiskAux
    rw [hc]
    dsimp only
    rw [if_pos him]
    by_cases hf : f = 0
    · rw [if_pos hf]
      subst hf
      rfl
    · rw [if_neg hf]
      dsimp only
      have hrec := ih (retries + 1) (Nat.pos_of_ne_zero hf)
        (fun j hj1 hj2 => hall j (by omega) (by omega))
      have hidx : retries + 1 + f - 1 = retries + (f + 1) - 1 := by omega
      rw [hidx] at hrec
      exact hrec

theorem waitOneDiskAux_retrySleep_five
    (check : Nat → Except GatewayErr String) (k : String) (m : Nat) :
    ∀ fuel retries n,
    DriveEvent.retrySleep n ∈ (waitOneDiskAux check k m fuel retries).2 →
      n = 5 := by
  intro fuel
  induction fuel with
  | zero => intro retries n h; simp [waitOneDiskAux] at h
  | succ f ih =>
    intro retries n h
    unfold waitOneDiskAux at h
    rcases hc : check retries with e | status <;> rw [hc] at h <;>
      dsimp only at h
    · simp at h
    · by_cases him : asciiToLower status = "importing"
      · rw [if_pos him] at h
        by_cases hf : f = 0
        · rw [if_pos hf] at h
          simp at h
        · rw [if_neg hf] at h
          dsimp only at h
          rcases List.mem_cons.mp h with h1 | h2
          · simp at h1
          · rcases List.mem_cons.mp h2 with h3 | h4
            · injection h3
            · exact ih (retries + 1) n h4
      · rw [if_neg him] at h
        simp at h

theorem waitDisksGo_retrySleep_five
    (check : String → Nat → Except GatewayErr String) (m : Nat) :
    ∀ keys n,
    DriveEvent.retrySleep n ∈ (waitDisksGo check m keys).2 → n = 5 := by
  intro keys
  induction keys with
  | nil => intro n h; simp [waitDisksGo] at h
  | cons k ks ih =>
    intro n h
    unfold waitDisksGo at h
    dsimp only at h
    rcases hr : (waitOneDiskAux (check k) k m m 0).1 with e | u <;>
      rw [hr] at h <;> dsimp only at h
    · exact waitOneDiskAux_retrySleep_five (check k) k m m 0 n h
    · rcases List.mem_append.mp h with h1 | h2
      · exact waitOneDiskAux_retrySleep_five (check k) k m m 0 n h1
      · exact ih n h2

theorem waitDisksGo_all_ok (check : String → Nat → Except GatewayErr String)
    (m : Nat) : ∀ keys : List String,
    (∀ k ∈ keys, (waitOneDiskAux (check k) k m m 0).1 = .ok ()) →
    waitDisksGo check m keys =
      (.ok (), (keys.map fun k => (waitOneDiskAux (check k) k m m 0).2).flatten) := by
  intro keys
  induction keys with
  | nil => intro h; rfl
  | cons k ks ih =>
    intro h
    unfold waitDisksGo
    dsimp only
    rw [h k (List.mem_cons_self k ks)]
    dsimp only
    rw [ih fun k' hk' => h k' (List.mem_cons_of_mem _ hk')]
    simp

/-- C5: the disk-import waiter sleeps one fixed five-second settle delay
before any polling, every inter-poll sleep is five seconds, the disks are
polled one at a time in key order, each disk is polled at most 20 times, a
status equal to "importing" case-insensitively keeps the loop polling while
any other status ends that disk's wait at once, and a disk that still
reports importing on all 20 attempts fails the wait with an error naming
the disk key and the last observed status. -/
theorem c5_disk_import_waiter_protocol :
    (∀ (check : String → Nat → Except GatewayErr String)
       (k : String) (ks : List String),
      ∃ r evs, waitForDiskImportCompletion check (k :: ks) 20 =
        (r, .settleSleep 5 :: evs))
  ∧ (∀ (check : String → Nat → Except GatewayErr String)
       (keys : List String) (n : Nat),
      DriveEvent.retrySleep n ∈
        (waitForDiskImportCompletion check keys 20).2 → n = 5)
  ∧ (∀ (check : String → Nat → Except GatewayErr String)
       (keys : List String),
      (∀ k ∈ keys, (waitOneDiskAux (check k) k 20 20 0).1 = .ok ()) →
      waitDisksGo check 20 keys =
        (.ok (),
         (keys.map fun k => (waitOneDiskAux (check k) k 20 20 0).2).flatten))
  ∧ (∀ (check : Nat → Except GatewayErr String) (k : String) (retries : Nat),
      ((waitOneDiskAux check k 20 20 retries).2.countP isPollEvent) ≤ 20)
  ∧ (∀ (check : Nat → Except GatewayErr String) (k : String)
       (fuel retries : Nat) (status : String),
      check retries = .ok status → asciiToLower status = "importing" →
      waitOneDiskAux check k 20 (fuel + 2) retries =
        ((waitOneDiskAux check k 20 (fuel + 1) (retries + 1)).1,
         .pollStatus k retries :: .retrySleep 5 ::
           (waitOneDiskAux check k 20 (fuel + 1) (retries + 1)).2))
  ∧ (∀ (check : Nat → Except GatewayErr String) (k : String)
       (fuel retries : Nat) (status : String),
      check retries = .ok status → asciiToLower status ≠ "importing" →
      waitOneDiskAux check k 20 (fuel + 1) retries =
        (.ok (), [.pollStatus k retries]))
  ∧ (∀ (check : Nat → Except GatewayErr String) (k : String)
       (sf : Nat → String),
      (∀ j, j < 20 → check j = .ok (sf j) ∧
        asciiToLower (sf j) = "importing") →
      (waitOneDiskAux check k 20 20 0).1 =
        .error (.importTimeout k 20 (sf 19))) := by
  refine ⟨?_, ?_, ?_, ?_, ?_, ?_, ?_⟩
  · intro check k ks
    exact ⟨(waitDisksGo check 20 (k :: ks)).1, (waitDisksGo check 20 (k :: ks)).2,
      rfl⟩
  · intro check keys n h
    unfold waitForDiskImportCompletion at h
    by_cases hk : keys.length = 0
    · rw [if_pos hk] at h
      simp at h
    · rw [if_neg hk] at h
      dsimp only at h
      rcases List.mem_cons.mp h with h1 | h2
      · injection h1
      · exact waitDisksGo_retrySleep_five check 20 keys n h2
  · intro check keys h
    exact waitDisksGo_all_ok check 20 keys h
  · intro check k retries
    exact waitOneDiskAux_pollCount_le check k 20 20 retries
  · intro check k fuel retries status hc him
    nth_rewrite 1 [waitOneDiskAux]
    rw [hc]
    dsimp only
    rw [if_pos him, if_neg (by omega : ¬ fuel + 1 = 0)]
  · intro check k fuel retries status hc him
    nth_rewrite 1 [waitOneDiskAux]
    rw [hc]
    dsimp only
    rw [if_neg him]
  · intro check k sf hall
    have := waitOneDiskAux_timeout check k 20 sf 20 0 (by omega)
      (fun j hj1 hj2 => hall j (by omega))
    simpa using this

/-- Witness for C5: a single disk that reports status Importing on every
attempt exhausts the 20-attempt budget and fails with the error naming the
disk key and the last observed status. -/
theorem c5_witness :
    (waitOneDiskAux (fun _ => .ok "Importing") "disk-a" 20 20 0).1 =
      .error (.importTimeout "disk-a" 20 "Importing") :=
  c5_disk_import_waiter_protocol.2.2.2.2.2.2
    (fun _ => .ok "Importing") "disk-a" (fun _ => "Importing")
    (fun j hj =>
      ⟨rfl, show asciiToLower "Importing" = "importing" by decide⟩)

/-- Counterexample to C6: in the disk-import status polling context a
Gateway failure mid-poll is NOT retried on the next tick: with 19 retries
still available, the very first failed status check ends the wait with a
fatal error after exactly one poll. -/
theorem c6_counterexample :
    (waitForDiskImportCompletion
        (fun _ _ => .error (.requestFailed "gateway down")) ["disk1"] 20).1 =
      .error (.statusCheckFailed (.requestFailed "gateway down")) ∧
    ((waitForDiskImportCompletion
        (fun _ _ => .error (.requestFailed "gateway down")) ["disk1"] 20).2.countP
      isPollEvent) = 1 := by
  exact ⟨rfl, rfl⟩

/-- C6 (amended): in the running-state polling after power-on and in the
guest-agent discovery polling, a Gateway call failing mid-poll is treated as
try-again-next-tick; in the disk-import status polling it is immediately
fatal; one-shot calls such as the VM create fail the step immediately. -/
theorem c6_amended_midpoll_error_policy :
    (∀ (isVMRunning : Nat → Except GatewayErr (Option Bool))
       (fuel t : Nat) (e : GatewayErr),
      isVMRunning t = .error e →
      pollRunningState isVMRunning (fuel + 1) t =
        pollRunningState isVMRunning fuel (t + 1))
  ∧ (∀ (getIPs : Nat → Except GatewayErr (List String))
       (fuel t : Nat) (e : GatewayErr),
      getIPs t = .error e →
      discoverIPs getIPs (fuel + 1) t = discoverIPs getIPs fuel (t + 1))
  ∧ (∀ (check : Nat → Except GatewayErr String) (k : String)
       (fuel retries : Nat) (e : GatewayErr),
      check retries = .error e →
      waitOneDiskAux check k 20 (fuel + 1) retries =
        (.error (.statusCheckFailed e), [.pollStatus k retries]))
  ∧ (∀ (env : VMCreateEnv) (vm : VmConfig) (s : BuildState) (e : GatewayErr),
      env.createVM = .error e →
      stepVMCreateRun env vm s =
        ({ s with error := some (.vmPostFailed e) }, .actionHalt)) := by
  refine ⟨?_, ?_, ?_, ?_⟩
  · intro isVMRunning fuel t e h
    nth_rewrite 1 [pollRunningState]
    rw [h]
  · intro getIPs fuel t e h
    nth_rewrite 1 [discoverIPs]
    rw [h]
  · intro check k fuel retries e h
    nth_rewrite 1 [waitOneDiskAux]
    rw [h]
  · intro env vm s e h
    unfold stepVMCreateRun
    rw [h]

/-- Witness for C6 (amended): a running-state read that fails at tick 0 but
reports running at tick 1 still lets the power-on poll reach the running
outcome instead of failing. -/
theorem c6_witness :
    pollRunningState
        (fun t => if t = 0 then .error (.requestFailed "gateway down")
          else .ok (some true)) 2 0 =
      pollRunningState
        (fun t => if t = 0 then .error (.requestFailed "gateway down")
          else .ok (some true)) 1 1 ∧
    pollRunningState
        (fun t => if t = 0 then .error (.requestFailed "gateway down")
          else .ok (some true)) 2 0 = .reachedRunning 1 := by
  constructor
  · exact c6_amended_midpoll_error_policy.1
      (fun t => if t = 0 then .error (.requestFailed "gateway down")
        else .ok (some true)) 1 0 (.requestFailed "gateway down") rfl
  · decide

/-- Address set A of the settle-restart scenario. -/
def settleSetA : List String := ["10.1.1.5"]

/-- Address set B of the settle-restart scenario. -/
def settleSetB : List String := ["10.1.1.9"]

/-- The guest-agent poll sequence [A, A, B, B, B] of the settle-restart
scenario (every poll past the fifth keeps returning B). -/
def settlePolls (t : Nat) : Except GatewayErr (List String) :=
  .ok (if t ≤ 1 then settleSetA else settleSetB)

/-- C7 evaluated at the failing input: the claim says that on the poll
sequence [A, A, B, B, B] with a two-tick settle window the settle clock
restarts exactly once and the resolver concludes on B; the program instead
concludes at the FIRST unchanged re-poll, because the unchanged branch of
the select falls into the unconditional break that ends the settle loop.
Discovery returns A at the first poll, the first settle re-poll returns A
unchanged, and the resolver concludes on A with zero restarts, storing A's
first address as the host.  (The changed branch does restart: polls going
A then B, B take one restart and then conclude on B at the next, first
unchanged, re-poll - still never accumulating a window.) -/
theorem c7_settle_concludes_on_first_unchanged_poll :
    discoverIPs settlePolls 1 0 = .found 0 settleSetA ∧
    settleLoop settlePolls 4 1 settleSetA 0 = (.settled settleSetA, 0) ∧
    stepWaitForIPFinalize settleSetA { } =
      ({ host := some "10.1.1.5", discovered_ips := some settleSetA },
       .actionContinue) ∧
    settleLoop settlePolls 4 2 settleSetA 0 = (.settled settleSetB, 1) := by
  exact ⟨by decide, by decide, by decide, by decide⟩

theorem checkAndResizeGo_nil_configs
    (readDisk : String → Except GatewayErr VMDiskResourceModel)
    (updateDiskSize : String → Int → Except GatewayErr Unit) :
    ∀ ks, checkAndResizeGo readDisk updateDiskSize [] ks = (.ok (), []) := by
  intro ks
  induction ks with
  | nil => rfl
  | cons k ks ih => rw [checkAndResizeGo, ih]

theorem checkAndResizeGo_all_ok
    (readDisk : String → Except GatewayErr VMDiskResourceModel)
    (updateDiskSize : String → Int → Except GatewayErr Unit)
    (dOf : String → VMDiskResourceModel)
    (hread : ∀ key, readDisk key = .ok (dOf key))
    (hupd : ∀ key g, updateDiskSize key g = .ok ()) :
    ∀ (keys : List String) (configs : List VMDiskResourceModel),
    checkAndResizeGo readDisk updateDiskSize configs keys =
      (.ok (), ((configs.zip keys).map fun p =>
        DriveEvent.readDiskCall p.2 ::
          (if (dOf p.2).diskSize.tdiv bytesPerGB ≠ p.1.diskSize then
            [DriveEvent.resizeCall p.2 p.1.diskSize]
          else [])).flatten) := by
  intro keys
  induction keys with
  | nil => intro configs; cases configs <;> rfl
  | cons k ks ih =>
    intro configs
    cases configs with
    | nil =>
      rw [checkAndResizeGo, checkAndResizeGo_nil_configs]
      simp
    | cons c cs =>
      rw [checkAndResizeGo, hread k]
      dsimp only
      by_cases hdiff : (dOf k).diskSize.tdiv bytesPerGB ≠ c.diskSize
      · rw [if_pos hdiff, hupd k c.diskSize]
        rw [ih cs]
        simp [hdiff]
      · rw [if_neg hdiff]
        rw [ih cs]
        simp [hdiff]

/-- C8: after the import waits, with every read and update succeeding the
reconciliation reads each tracked disk once, in order, and issues exactly
one resize targeting the requested size when the byte size converted to
gigabytes differs from the requested size and none when they are equal; a
failed read or a failed resize is fatal at once, and a reconciliation error
halts the waiter step with the error recorded in the build state. -/
theorem c8_disk_size_reconciliation :
    (∀ (readDisk : String → Except GatewayErr VMDiskResourceModel)
       (updateDiskSize : String → Int → Except GatewayErr Unit)
       (dOf : String → VMDiskResourceModel)
       (configs : List VMDiskResourceModel) (keys : List String),
      (∀ key, readDisk key = .ok (dOf key)) →
      (∀ key g, updateDiskSize key g = .ok ()) →
      checkAndResizeImportedDisks readDisk updateDiskSize configs keys =
        (.ok (), ((configs.zip keys).map fun p =>
          DriveEvent.readDiskCall p.2 ::
            (if (dOf p.2).diskSize.tdiv bytesPerGB ≠ p.1.diskSize then
              [DriveEvent.resizeCall p.2 p.1.diskSize]
            else [])).flatten))
  ∧ (∀ (readDisk : String → Except GatewayErr VMDiskResourceModel)
       (updateDiskSize : String → Int → Except GatewayErr Unit)
       (c : VMDiskResourceModel) (cs : List VMDiskResourceModel)
       (k : String) (ks : List String) (e : GatewayErr),
      readDisk k = .error e →
      (checkAndResizeImportedDisks readDisk updateDiskSize
        (c :: cs) (k :: ks)).1 = .error (.readFailed c.name e))
  ∧ (∀ (readDisk : String → Except GatewayErr VMDiskResourceModel)
       (updateDiskSize : String → Int → Except GatewayErr Unit)
       (c : VMDiskResourceModel) (cs : List VMDiskResourceModel)
       (k : String) (ks : List String) (d : VMDiskResourceModel)
       (e : GatewayErr),
      readDisk k = .ok d → d.diskSize.tdiv bytesPerGB ≠ c.diskSize →
      updateDiskSize k c.diskSize = .error e →
      (checkAndResizeImportedDisks readDisk updateDiskSize
        (c :: cs) (k :: ks)).1 = .error (.resizeFailed c.name e))
  ∧ (∀ (denv : DriveEnv) (s : BuildState) (keys : List String)
       (configs : List VMDiskResourceModel) (e : ResizeErr),
      s.diskImportKeys = some keys → keys ≠ [] →
      s.diskImportConfigs = some configs → configs ≠ [] →
      (waitForDiskImportCompletion denv.check keys 20).1 = .ok () →
      (checkAndResizeImportedDisks denv.readDisk denv.updateDiskSize
        configs keys).1 = .error e →
      stepWaitForDiskImportRun denv s =
        ({ s with error := some (.diskResizeFailed e) }, .actionHalt)) := by
  refine ⟨?_, ?_, ?_, ?_⟩
  · intro readDisk updateDiskSize dOf configs keys hread hupd
    unfold checkAndResizeImportedDisks
    by_cases hg : configs.length = 0 ∨ keys.length = 0
    · rw [if_pos hg]
      rcases hg with hg | hg
      · rw [List.length_eq_zero] at hg
        subst hg
        simp
      · rw [List.length_eq_zero] at hg
        subst hg
        simp
    · rw [if_neg hg]
      exact checkAndResizeGo_all_ok readDisk updateDiskSize dOf hread hupd
        keys configs
  · intro readDisk updateDiskSize c cs k ks e hread
    unfold checkAndResizeImportedDisks
    rw [if_neg (by simp)]
    rw [checkAndResizeGo, hread]
  · intro readDisk updateDiskSize c cs k ks d e hread hdiff hupd
    unfold checkAndResizeImportedDisks
    rw [if_neg (by simp)]
    rw [checkAndResizeGo, hread]
    dsimp only
    rw [if_pos hdiff, hupd]
  · intro denv s keys configs e hkeys hkne hconfigs hcne hwait hresize
    unfold stepWaitForDiskImportRun
    rw [hkeys]
    dsimp only
    rw [if_neg (fun h => hkne (List.length_eq_zero.mp h)), hwait]
    dsimp only
    rw [hconfigs]
    dsimp only
    rw [if_neg (fun h => hcne (List.length_eq_zero.mp h)), hresize]

/-- Witness for C8 (the spec scenario): a disk requested at 20 GB that
reports 15 GB after import is read once and resized exactly once to 20 GB. -/
theorem c8_witness :
    checkAndResizeImportedDisks
        (fun _ => .ok { name := "data0", media := "import",
                        diskSize := 15 * bytesPerGB })
        (fun _ _ => .ok ())
        [{ name := "data0", media := "import", diskSize := 20 }] ["k0"] =
      (.ok (), [DriveEvent.readDiskCall "k0",
                DriveEvent.resizeCall "k0" 20]) := by
  have h := c8_disk_size_reconciliation.1
    (fun _ => .ok { name := "data0", media := "import",
                    diskSize := 15 * bytesPerGB })
    (fun _ _ => .ok ())
    (fun _ => { name := "data0", media := "import",
                diskSize := 15 * bytesPerGB })
    [{ name := "data0", media := "import", diskSize := 20 }] ["k0"]
    (fun _ => rfl) (fun _ _ => rfl)
  rw [h]
  rfl
